import Mathlib

/-!
# core-js-101, `src/05-objects-tasks.js`: the CSS selector builder

A shallow embedding of the `Selector` class and of the `cssSelectorBuilder`
facade, followed by theorems about them.

* A `Selector` instance is a JavaScript object whose own properties are created
  by assignment (`this.element1 = ...`).  `stringify()` reads them back with
  `Object.values`, so the embedding keeps the properties as a list in insertion
  order: assigning to a property that exists replaces its value in place,
  assigning to a new one appends it.
* Every value stored by the six part methods is a string when the token is a
  string, so property values are strings; `undefined` is the absence of the
  property.
* `throw new Error(msg)` is an `Except.error` carrying which of the two messages
  of the source was thrown.  Every `throw` of the source precedes the assignments
  of its method, so a call that throws leaves the receiver as it was.
-/

set_option autoImplicit false

namespace CssSelector

/-- The property names used by `Selector`. -/
inductive Key where
  | element1
  | id1
  | class1
  | attr1
  | pseudoClass1
  | pseudoElement1
  deriving DecidableEq, Repr

/-- The two errors thrown by the part methods, told apart by their message. -/
inductive SelectorError where
  | duplicate
  | order
  deriving DecidableEq, Repr

/-- The message passed to `new Error(...)` in the source. -/
def SelectorError.message : SelectorError → String
  | .duplicate =>
    "Element, id and pseudo-element should not occur more then one time inside the selector"
  | .order =>
    "Selector parts should be arranged in the following order: element, id, class, attribute, pseudo-class, pseudo-element"

/-- An instance of `class Selector`: its own properties, in insertion order. -/
structure Selector where
  props : List (Key × String)
  deriving DecidableEq, Repr

/-- The object made by `new Selector()`: no own property. -/
def Selector.empty : Selector := ⟨[]⟩

/-- Property read on a property list: the value of the first entry for `k`. -/
def lookupProp (k : Key) : List (Key × String) → Option String
  | [] => none
  | (k', v) :: rest => if k' = k then some v else lookupProp k rest

/-- Property assignment on a property list: an existing property keeps its place
and takes the new value, a new property goes to the end. -/
def assignProp (k : Key) (v : String) : List (Key × String) → List (Key × String)
  | [] => [(k, v)]
  | (k', v') :: rest => if k' = k then (k, v) :: rest else (k', v') :: assignProp k v rest

/-- `this.k`: the value of property `k`, `none` standing for `undefined`. -/
def Selector.get (self : Selector) (k : Key) : Option String :=
  lookupProp k self.props

/-- `this.k = v`. -/
def Selector.set (self : Selector) (k : Key) (v : String) : Selector :=
  ⟨assignProp k v self.props⟩

/-- JavaScript truthiness of a property value that is `undefined` or a string:
`undefined` and the empty string are falsy, every other string is truthy. -/
def truthy : Option String → Bool
  | none => false
  | some s => decide (s ≠ "")

/-- `Array.prototype.join('')` on an array of strings. -/
def joinEmpty : List String → String
  | [] => ""
  | s :: rest => s ++ joinEmpty rest

/-- The six part methods of `Selector`. -/
inductive Part where
  | element
  | id
  | class_
  | attr
  | pseudoClass
  | pseudoElement
  deriving DecidableEq, Repr

namespace Selector

/-- `element(value)`. -/
def element (self : Selector) (value : String) : Except SelectorError Selector :=
  if truthy (self.get .element1) then .error .duplicate
  else if truthy (self.get .id1) then .error .order
  else .ok (self.set .element1 value)

/-- `id(value)`. -/
def id (self : Selector) (value : String) : Except SelectorError Selector :=
  if truthy (self.get .id1) then .error .duplicate
  else if truthy (self.get .class1) || truthy (self.get .pseudoElement1) then .error .order
  else .ok (self.set .id1 ("#" ++ value))

/-- `class(value)`. -/
def class_ (self : Selector) (value : String) : Except SelectorError Selector :=
  if truthy (self.get .attr1) then .error .order
  else if !truthy (self.get .class1) then .ok (self.set .class1 ("." ++ value))
  else .ok (self.set .class1 ((self.get .class1).getD "undefined" ++ "." ++ value))

/-- `attr(value)`. -/
def attr (self : Selector) (value : String) : Except SelectorError Selector :=
  if truthy (self.get .pseudoClass1) then .error .order
  else .ok (self.set .attr1 ("[" ++ value ++ "]"))

/-- `pseudoClass(value)`. -/
def pseudoClass (self : Selector) (value : String) : Except SelectorError Selector :=
  if truthy (self.get .pseudoElement1) then .error .order
  else if !truthy (self.get .pseudoClass1) then .ok (self.set .pseudoClass1 (":" ++ value))
  else .ok (self.set .pseudoClass1 ((self.get .pseudoClass1).getD "undefined" ++ ":" ++ value))

/-- `pseudoElement(value)`. -/
def pseudoElement (self : Selector) (value : String) : Except SelectorError Selector :=
  if truthy (self.get .pseudoElement1) then .error .duplicate
  else .ok (self.set .pseudoElement1 ("::" ++ value))

/-- `stringify()`: `Object.values(JSON.parse(JSON.stringify(this))).join('')`.
The JSON round trip of an object whose own properties are all strings gives an
object with the same property names, in the same order, with the same values;
`Object.values` lists the values in that order. -/
def stringify (self : Selector) : String :=
  joinEmpty (self.props.map Prod.snd)

/-- The method call `self.p(value)`. -/
def call (self : Selector) (p : Part) (value : String) : Except SelectorError Selector :=
  match p with
  | .element => self.element value
  | .id => self.id value
  | .class_ => self.class_ value
  | .attr => self.attr value
  | .pseudoClass => self.pseudoClass value
  | .pseudoElement => self.pseudoElement value

/-- The chained calls `self.p1(v1).p2(v2)...`: every method returns `this`, and the
first call that throws ends the chain with its error. -/
def chain (self : Selector) : List (Part × String) → Except SelectorError Selector
  | [] => .ok self
  | (p, v) :: rest =>
    match self.call p v with
    | .ok s => chain s rest
    | .error e => .error e

/-- The receiver after the call `self.p(value)`, whether it returned or threw: a
call that throws has assigned nothing. -/
def attempt (self : Selector) (c : Part × String) : Selector :=
  match self.call c.1 c.2 with
  | .ok s => s
  | .error _ => self

/-- The receiver after a sequence of calls, each of which may have thrown (the
caller catching the error and going on). -/
def attempts (self : Selector) (cs : List (Part × String)) : Selector :=
  cs.foldl attempt self

end Selector

/-! ## The `cssSelectorBuilder` facade

`cssSelectorBuilder` is one object literal.  Its methods allocate `Selector`
instances, and they also assign to properties of the facade itself (`this.combo`,
`this.class1`, `this.attr1`, `this.pseudoClass1`, `this.pseudoElement1`).  The
state of the program is therefore the heap of `Selector` instances together with
those five properties of the facade. -/

/-- A reference to an object that exposes `stringify()`: a `Selector` instance of
the heap, or the `cssSelectorBuilder` object itself (which `combine` returns). -/
inductive Obj where
  | selector (addr : Nat)
  | builder
  deriving DecidableEq, Repr

/-- The program state: the allocated `Selector` instances (an address is an index
of `heap`) and the properties of `cssSelectorBuilder` written by its methods;
`none` is `undefined`. -/
structure World where
  heap : List Selector
  combo : Option String
  class1 : Option Nat
  attr1 : Option Nat
  pseudoClass1 : Option Nat
  pseudoElement1 : Option Nat
  deriving DecidableEq, Repr

namespace World

/-- The state when the module has just been loaded. -/
def init : World := ⟨[], none, none, none, none, none⟩

/-- `new Selector()`: the new instance and its address. -/
def alloc (w : World) : World × Nat :=
  ({ w with heap := w.heap ++ [Selector.empty] }, w.heap.length)

/-- The instance at address `a` (addresses come from `alloc`; an address that was
never allocated reads as an object without properties). -/
def read (w : World) (a : Nat) : Selector :=
  w.heap.getD a Selector.empty

/-- The method call `p(value)` on the instance at address `a`, which mutates that
instance in place and returns it. -/
def callSelector (w : World) (a : Nat) (p : Part) (value : String) :
    Except SelectorError World :=
  match (w.read a).call p value with
  | .ok s => .ok { w with heap := w.heap.set a s }
  | .error e => .error e

/-- The value returned by `o.stringify()`: for a `Selector` its string, for the
facade `this.combo`, which is `undefined` (`none`) until `combine` has run. -/
def stringifyOf (w : World) : Obj → Option String
  | .selector a => some (w.read a).stringify
  | .builder => w.combo

end World

/-- A value interpolated in a template literal: `undefined` prints as the text
`undefined`. -/
def template : Option String → String
  | none => "undefined"
  | some s => s

namespace cssSelectorBuilder

/-- `cssSelectorBuilder.element(value)`. -/
def element (w : World) (value : String) : Except SelectorError (World × Obj) :=
  let (w1, selector) := w.alloc
  match w1.callSelector selector .element value with
  | .ok w2 => .ok (w2, .selector selector)
  | .error e => .error e

/-- `cssSelectorBuilder.id(value)`. -/
def id (w : World) (value : String) : Except SelectorError (World × Obj) :=
  let (w1, selector) := w.alloc
  match w1.callSelector selector .id value with
  | .ok w2 => .ok (w2, .selector selector)
  | .error e => .error e

/-- `cssSelectorBuilder.class(value)`. -/
def class_ (w : World) (value : String) : Except SelectorError (World × Obj) :=
  let (w1, selector) := w.alloc
  match w1.callSelector selector .class_ value with
  | .ok w2 => .ok ({ w2 with class1 := some selector }, .selector selector)
  | .error e => .error e

/-- `cssSelectorBuilder.attr(value)`.  When `this.attr1` is already set the source
calls `this.attr1.attr()` without an argument: `value` is then `undefined`, and
the template literal of `Selector.attr` stores the text `[undefined]`. -/
def attr (w : World) (value : String) : Except SelectorError (World × Obj) :=
  match w.attr1 with
  | none =>
    let (w1, selector) := w.alloc
    match w1.callSelector selector .attr value with
    | .ok w2 => .ok ({ w2 with attr1 := some selector }, .selector selector)
    | .error e => .error e
  | some saved =>
    match w.callSelector saved .attr (template none) with
    | .ok w1 => .ok (w1, .selector saved)
    | .error e => .error e

/-- `cssSelectorBuilder.pseudoClass(value)`. -/
def pseudoClass (w : World) (value : String) : Except SelectorError (World × Obj) :=
  let (w1, selector) := w.alloc
  match w1.callSelector selector .pseudoClass value with
  | .ok w2 => .ok ({ w2 with pseudoClass1 := some selector }, .selector selector)
  | .error e => .error e

/-- `cssSelectorBuilder.pseudoElement(value)`. -/
def pseudoElement (w : World) (value : String) : Except SelectorError (World × Obj) :=
  match w.pseudoElement1 with
  | none =>
    let (w1, selector) := w.alloc
    match w1.callSelector selector .pseudoElement value with
    | .ok w2 => .ok ({ w2 with pseudoElement1 := some selector }, .selector selector)
    | .error e => .error e
  | some saved => .ok (w, .selector saved)

/-- `cssSelectorBuilder.combine(selector1, combinator, selector2)`: assigns
`this.combo` and returns `this`, the facade. -/
def combine (w : World) (selector1 : Obj) (combinator : String) (selector2 : Obj) :
    World × Obj :=
  ({ w with combo := some (template (w.stringifyOf selector1) ++ " " ++ combinator ++ " "
      ++ template (w.stringifyOf selector2)) }, .builder)

/-- `cssSelectorBuilder.stringify()`: `this.combo`. -/
def stringify (w : World) : Option String :=
  w.combo

/-- The method `p` of the facade, called with `value`. -/
def entry (w : World) (p : Part) (value : String) : Except SelectorError (World × Obj) :=
  match p with
  | .element => element w value
  | .id => id w value
  | .class_ => class_ w value
  | .attr => attr w value
  | .pseudoClass => pseudoClass w value
  | .pseudoElement => pseudoElement w value

end cssSelectorBuilder

/-- The call `o.p(value)` on an object handed out earlier: a `Selector` instance
runs its own method and returns itself; the facade runs its entry point. -/
def World.invoke (w : World) (o : Obj) (p : Part) (value : String) :
    Except SelectorError (World × Obj) :=
  match o with
  | .selector a =>
    match w.callSelector a p value with
    | .ok w1 => .ok (w1, .selector a)
    | .error e => .error e
  | .builder => cssSelectorBuilder.entry w p value

/-- The expressions a caller writes against the facade. -/
inductive Expr where
  /-- An object obtained earlier and held in a variable. -/
  | ref (o : Obj)
  /-- The entry point `cssSelectorBuilder.p(value)`. -/
  | entry (p : Part) (value : String)
  /-- The chained call `receiver.p(value)`. -/
  | part (receiver : Expr) (p : Part) (value : String)
  /-- The call `cssSelectorBuilder.combine(selector1, combinator, selector2)`. -/
  | combine (selector1 : Expr) (combinator : String) (selector2 : Expr)
  deriving Repr

/-- Evaluation of an expression: the receiver before the call, the arguments from
left to right before the body of `combine`, and the first `throw` ends it. -/
def Expr.eval : Expr → World → Except SelectorError (World × Obj)
  | .ref o, w => .ok (w, o)
  | .entry p value, w => cssSelectorBuilder.entry w p value
  | .part receiver p value, w =>
    match receiver.eval w with
    | .ok (w1, o) => w1.invoke o p value
    | .error e => .error e
  | .combine selector1 combinator selector2, w =>
    match selector1.eval w with
    | .error e => .error e
    | .ok (w1, o1) =>
      match selector2.eval w1 with
      | .error e => .error e
      | .ok (w2, o2) => .ok (cssSelectorBuilder.combine w2 o1 combinator o2)

/-- The string returned by `e.stringify()` for an expression `e`, with the state
after the evaluation; `none` in the string position is `undefined`. -/
def Expr.render (e : Expr) (w : World) : Except SelectorError (World × Option String) :=
  match e.eval w with
  | .ok (w1, o) => .ok (w1, w1.stringifyOf o)
  | .error err => .error err

/-- The calls of a simple selector built once per chosen kind, in the canonical
order element, id, class, attribute, pseudo-class, pseudo-element; `none` leaves
the kind out. -/
def canonicalCalls (element id class_ attr pseudoClass pseudoElement : Option String) :
    List (Part × String) :=
  (element.toList.map fun v => (Part.element, v)) ++
  (id.toList.map fun v => (Part.id, v)) ++
  (class_.toList.map fun v => (Part.class_, v)) ++
  (attr.toList.map fun v => (Part.attr, v)) ++
  (pseudoClass.toList.map fun v => (Part.pseudoClass, v)) ++
  (pseudoElement.toList.map fun v => (Part.pseudoElement, v))

/-- The text of one part, delimiter included, or nothing when the part is left
out. -/
def partText (opening : String) (token : Option String) (closing : String) : String :=
  match token with
  | none => ""
  | some v => opening ++ v ++ closing

/-! ## The method bodies, statement by statement

The methods of `Selector` once more, written as the sequence of statements of the
source: a `throw` ends the body, and the receiver is whatever the statements
before it made of it. -/

/-- A method body: it may throw, and it reads and assigns the properties of
`this`; the receiver is kept when the body throws. -/
abbrev Method := ExceptT SelectorError (StateM Selector) Unit

namespace Body

/-- The expression `this.k`. -/
def read (k : Key) : ExceptT SelectorError (StateM Selector) (Option String) := do
  return (← getThe Selector).get k

/-- The statement `this.k = v`. -/
def assign (k : Key) (v : String) : Method :=
  modifyThe Selector fun self => self.set k v

/-- The body of `element(value)`. -/
def element (value : String) : Method := do
  if truthy (← read .element1) then
    throw .duplicate
  if truthy (← read .id1) then
    throw .order
  assign .element1 value

/-- The body of `id(value)`. -/
def id (value : String) : Method := do
  if truthy (← read .id1) then
    throw .duplicate
  if truthy (← read .class1) || truthy (← read .pseudoElement1) then
    throw .order
  assign .id1 ("#" ++ value)

/-- The body of `class(value)`. -/
def class_ (value : String) : Method := do
  if truthy (← read .attr1) then
    throw .order
  if !truthy (← read .class1) then
    assign .class1 ("." ++ value)
  else
    assign .class1 (template (← read .class1) ++ "." ++ value)

/-- The body of `attr(value)`. -/
def attr (value : String) : Method := do
  if truthy (← read .pseudoClass1) then
    throw .order
  assign .attr1 ("[" ++ value ++ "]")

/-- The body of `pseudoClass(value)`. -/
def pseudoClass (value : String) : Method := do
  if truthy (← read .pseudoElement1) then
    throw .order
  if !truthy (← read .pseudoClass1) then
    assign .pseudoClass1 (":" ++ value)
  else
    assign .pseudoClass1 (template (← read .pseudoClass1) ++ ":" ++ value)

/-- The body of `pseudoElement(value)`. -/
def pseudoElement (value : String) : Method := do
  if truthy (← read .pseudoElement1) then
    throw .duplicate
  assign .pseudoElement1 ("::" ++ value)

/-- The body of the method `p`. -/
def ofPart (p : Part) (value : String) : Method :=
  match p with
  | .element => element value
  | .id => id value
  | .class_ => class_ value
  | .attr => attr value
  | .pseudoClass => pseudoClass value
  | .pseudoElement => pseudoElement value

end Body

/-- Running the body of `self.p(value)`: whether it returned or threw, and the
receiver afterwards. -/
def Selector.exec (self : Selector) (p : Part) (value : String) :
    Except SelectorError Unit × Selector :=
  (ExceptT.run (Body.ofPart p value)).run self

/-! ## Sequences of statements against the facade -/

/-- The statements `e1; e2; ...`, each an expression evaluated for its effect. -/
def runAll : List Expr → World → Except SelectorError World
  | [], w => .ok w
  | e :: rest, w =>
    match e.eval w with
    | .ok (w1, _) => runAll rest w1
    | .error err => .error err

/-- The object returned by `e` when the statements `history` have run before. -/
def evalAfter (history : List Expr) (e : Expr) (w : World) :
    Except SelectorError (World × Obj) :=
  match runAll history w with
  | .ok w1 => e.eval w1
  | .error err => .error err

/-- The value of `e.stringify()` when the statements `history` have run before. -/
def renderAfter (history : List Expr) (e : Expr) (w : World) :
    Except SelectorError (Option String) :=
  match runAll history w with
  | .ok w1 => (e.render w1).map Prod.snd
  | .error err => .error err

/-- The program `const o = first; const before = o.stringify(); next;` followed by
`o.stringify()`: the two strings read from `o`, before and after `next`. -/
def stringifyAround (first next : Expr) (w : World) :
    Except SelectorError (Option String × Option String) :=
  match first.eval w with
  | .error err => .error err
  | .ok (w1, o) =>
    match next.eval w1 with
    | .error err => .error err
    | .ok (w2, _) => .ok (w1.stringifyOf o, w2.stringifyOf o)

/-! ## Descriptions of the rendering and of well-ordered chains -/

/-- The property assigned by each part method. -/
def Part.key : Part → Key
  | .element => .element1
  | .id => .id1
  | .class_ => .class1
  | .attr => .attr1
  | .pseudoClass => .pseudoClass1
  | .pseudoElement => .pseudoElement1

/-- The kinds of a sequence of calls, each once, in the order in which each kind
was first called. -/
def kindsInOrder (calls : List (Part × String)) : List Part :=
  calls.foldl (fun seen c => if c.1 ∈ seen then seen else seen ++ [c.1]) []

/-- The tokens passed to the calls of kind `p`, in call order. -/
def tokensOf (p : Part) (calls : List (Part × String)) : List String :=
  (calls.filter fun c => c.1 = p).map Prod.snd

/-- The last token passed to a call of kind `p` (the empty text if there is none). -/
def lastToken (p : Part) (calls : List (Part × String)) : String :=
  (tokensOf p calls).getLast?.getD ""

/-- The group of kind `p` as described for a sequence of calls: the raw element
token, `#` and the id, the accumulated `.c1.c2...`, the last attribute between
brackets, the accumulated `:p1:p2...`, `::` and the pseudo-element. -/
def groupText (calls : List (Part × String)) : Part → String
  | .element => lastToken .element calls
  | .id => "#" ++ lastToken .id calls
  | .class_ => joinEmpty ((tokensOf .class_ calls).map fun c => "." ++ c)
  | .attr => "[" ++ lastToken .attr calls ++ "]"
  | .pseudoClass => joinEmpty ((tokensOf .pseudoClass calls).map fun c => ":" ++ c)
  | .pseudoElement => "::" ++ lastToken .pseudoElement calls

/-- The rendering described for a sequence of calls: the groups of the kinds that
were called, in the order in which each kind was first called. -/
def describedStringify (calls : List (Part × String)) : String :=
  joinEmpty ((kindsInOrder calls).map (groupText calls))

/-- A chain of the shape `element? id? class* attr* pseudoClass* pseudoElement?`. -/
def wellOrderedCalls (element id : Option String) (classes attrs pseudoClasses : List String)
    (pseudoElement : Option String) : List (Part × String) :=
  (element.toList.map fun v => (Part.element, v)) ++
  (id.toList.map fun v => (Part.id, v)) ++
  (classes.map fun v => (Part.class_, v)) ++
  (attrs.map fun v => (Part.attr, v)) ++
  (pseudoClasses.map fun v => (Part.pseudoClass, v)) ++
  (pseudoElement.toList.map fun v => (Part.pseudoElement, v))

/-- The position of a property in the canonical order. -/
def Key.rank : Key → Nat
  | .element1 => 0
  | .id1 => 1
  | .class1 => 2
  | .attr1 => 3
  | .pseudoClass1 => 4
  | .pseudoElement1 => 5

/-- The position of the canonical order from which the properties have to be unset
for `p` to pass its checks: `element` reads `element1` and `id1`; `id` reads `id1`,
`class1` and `pseudoElement1`; `class` reads `attr1`; `attr` reads `pseudoClass1`;
`pseudoClass` and `pseudoElement` read `pseudoElement1`. -/
def Part.clearFrom : Part → Nat
  | .element => 0
  | .id => 1
  | .class_ => 3
  | .attr => 4
  | .pseudoClass => 5
  | .pseudoElement => 5

/-- Every property from position `r` of the canonical order onwards is unset. -/
def Selector.unsetFrom (r : Nat) (s : Selector) : Prop :=
  ∀ k : Key, r ≤ k.rank → s.get k = none

/-! ## Properties of property lists and of truthiness -/

theorem lookupProp_assignProp_same (k : Key) (v : String) (l : List (Key × String)) :
    lookupProp k (assignProp k v l) = some v := by
  induction l with
  | nil => simp [assignProp, lookupProp]
  | cons kv rest ih =>
    obtain ⟨k', v'⟩ := kv
    by_cases h : k' = k
    · simp [assignProp, lookupProp, h]
    · simp [assignProp, lookupProp, h, ih]

theorem lookupProp_assignProp_of_ne (k k' : Key) (v : String) (l : List (Key × String))
    (hne : k ≠ k') : lookupProp k' (assignProp k v l) = lookupProp k' l := by
  induction l with
  | nil => simp [assignProp, lookupProp, hne]
  | cons kv rest ih =>
    obtain ⟨k1, v1⟩ := kv
    by_cases h : k1 = k
    · subst h
      simp [assignProp, lookupProp, hne]
    · by_cases h' : k1 = k'
      · subst h'
        simp [assignProp, lookupProp, h]
      · simp [assignProp, lookupProp, h, h', ih]

theorem Selector.get_set_same (s : Selector) (k : Key) (v : String) :
    (s.set k v).get k = some v :=
  lookupProp_assignProp_same k v s.props

theorem Selector.get_set_of_ne (s : Selector) (k k' : Key) (v : String) (hne : k ≠ k') :
    (s.set k v).get k' = s.get k' :=
  lookupProp_assignProp_of_ne k k' v s.props hne

theorem append_ne_empty_of_left (a b : String) (ha : a ≠ "") : a ++ b ≠ "" := by
  intro h
  apply ha
  have hd : (a ++ b).data = ("" : String).data := by rw [h]
  rw [String.data_append] at hd
  have hnil : a.data = [] := (List.append_eq_nil.mp hd).1
  exact String.ext hnil

theorem truthy_some_append (a b : String) (ha : a ≠ "") : truthy (some (a ++ b)) = true := by
  simp [truthy, append_ne_empty_of_left a b ha]

/-- Once `id1` holds a truthy value, no call, returning or throwing, changes that. -/
theorem Selector.attempt_keeps_id (s : Selector) (c : Part × String)
    (h : truthy (s.get .id1) = true) : truthy ((s.attempt c).get .id1) = true := by
  obtain ⟨p, v⟩ := c
  cases p <;>
    simp only [Selector.attempt, Selector.call, Selector.element, Selector.id, Selector.class_,
      Selector.attr, Selector.pseudoClass, Selector.pseudoElement] <;>
    split_ifs <;>
    simp [Selector.get_set_of_ne, h]

/-- Once `pseudoElement1` holds a truthy value, no call, returning or throwing,
changes that. -/
theorem Selector.attempt_keeps_pseudoElement (s : Selector) (c : Part × String)
    (h : truthy (s.get .pseudoElement1) = true) :
    truthy ((s.attempt c).get .pseudoElement1) = true := by
  obtain ⟨p, v⟩ := c
  cases p <;>
    simp only [Selector.attempt, Selector.call, Selector.element, Selector.id, Selector.class_,
      Selector.attr, Selector.pseudoClass, Selector.pseudoElement] <;>
    split_ifs <;>
    simp [Selector.get_set_of_ne, h]

theorem Selector.attempts_keeps_id (cs : List (Part × String)) (s : Selector)
    (h : truthy (s.get .id1) = true) : truthy ((s.attempts cs).get .id1) = true := by
  induction cs generalizing s with
  | nil => exact h
  | cons c rest ih => exact ih (s.attempt c) (Selector.attempt_keeps_id s c h)

theorem Selector.attempts_keeps_pseudoElement (cs : List (Part × String)) (s : Selector)
    (h : truthy (s.get .pseudoElement1) = true) :
    truthy ((s.attempts cs).get .pseudoElement1) = true := by
  induction cs generalizing s with
  | nil => exact h
  | cons c rest ih => exact ih (s.attempt c) (Selector.attempt_keeps_pseudoElement s c h)

theorem Selector.id_ok_truthy (s s1 : Selector) (v : String) (h : s.id v = .ok s1) :
    truthy (s1.get .id1) = true := by
  simp only [Selector.id] at h
  split_ifs at h
  cases h
  rw [Selector.get_set_same]
  exact truthy_some_append "#" v (by decide)

theorem Selector.pseudoElement_ok_truthy (s s1 : Selector) (v : String)
    (h : s.pseudoElement v = .ok s1) : truthy (s1.get .pseudoElement1) = true := by
  simp only [Selector.pseudoElement] at h
  split_ifs at h
  cases h
  rw [Selector.get_set_same]
  exact truthy_some_append "::" v (by decide)

/-! ## Simple selectors: rendering, order checks, duplicates -/

/-- C1, evaluated at `new Selector().class('c').element('e')`: both calls return,
and `stringify()` is `'.ce'`, the class before the element, because the values
are joined in the order in which the properties were created. The canonical
order asked for by the claim would give `'e.c'`. -/
theorem stringify_class_then_element :
    (Selector.empty.chain [(.class_, "c"), (.element, "e")]).map Selector.stringify
      = .ok ".ce" := rfl

/-- C2, evaluated at `new Selector().attr('href').id('x')`: the attribute is set
and an attribute canonically follows an id, yet `id('x')` returns instead of
throwing the out-of-order error, and the selector then reads `'[href]#x'`. `id`
tests only `class1` and `pseudoElement1`, not `attr1` or `pseudoClass1`. -/
theorem id_after_attr_succeeds :
    Selector.empty.chain [(.attr, "href")] = .ok ⟨[(.attr1, "[href]")]⟩ ∧
    truthy ((Selector.mk [(.attr1, "[href]")]).get .attr1) = true ∧
    (Selector.mk [(.attr1, "[href]")]).id "x" = .ok ⟨[(.attr1, "[href]"), (.id1, "#x")]⟩ ∧
    (Selector.empty.chain [(.attr, "href"), (.id, "x")]).map Selector.stringify
      = .ok "[href]#x" :=
  ⟨rfl, rfl, rfl, rfl⟩

/-- C3: after `id(v)` has returned on a selector, whatever calls follow on that
selector (returning or throwing), `id(w)` throws the duplicate error; and the
same for `pseudoElement`. -/
theorem second_id_or_pseudoElement_is_duplicate (s s1 : Selector) (v w : String)
    (between : List (Part × String)) :
    (s.id v = .ok s1 → (s1.attempts between).id w = .error .duplicate) ∧
    (s.pseudoElement v = .ok s1 →
      (s1.attempts between).pseudoElement w = .error .duplicate) := by
  constructor
  · intro h
    have h1 := Selector.attempts_keeps_id between s1 (Selector.id_ok_truthy s s1 v h)
    simp [Selector.id, h1]
  · intro h
    have h1 := Selector.attempts_keeps_pseudoElement between s1
      (Selector.pseudoElement_ok_truthy s s1 v h)
    simp [Selector.pseudoElement, h1]

/-- After `element('div').id('main')`, then `class('c')`, a throwing `element('p')`
and `attr('a')`, the call `id('other')` throws the duplicate error; after
`pseudoElement('after')` and a throwing `pseudoClass('hover')`, the call
`pseudoElement('before')` throws the duplicate error. -/
theorem second_id_or_pseudoElement_is_duplicate_witness :
    (Selector.mk [(.element1, "div")]).id "main"
        = .ok ⟨[(.element1, "div"), (.id1, "#main")]⟩ ∧
      ((Selector.mk [(.element1, "div"), (.id1, "#main")]).attempts
        [(.class_, "c"), (.element, "p"), (.attr, "a")]).id "other" = .error .duplicate ∧
    Selector.empty.pseudoElement "after" = .ok ⟨[(.pseudoElement1, "::after")]⟩ ∧
      ((Selector.mk [(.pseudoElement1, "::after")]).attempts
        [(.pseudoClass, "hover")]).pseudoElement "before" = .error .duplicate :=
  ⟨rfl,
   (second_id_or_pseudoElement_is_duplicate ⟨[(.element1, "div")]⟩
      ⟨[(.element1, "div"), (.id1, "#main")]⟩ "main" "other"
      [(.class_, "c"), (.element, "p"), (.attr, "a")]).1 rfl,
   rfl,
   (second_id_or_pseudoElement_is_duplicate Selector.empty
      ⟨[(.pseudoElement1, "::after")]⟩ "after" "before" [(.pseudoClass, "hover")]).2 rfl⟩

/-- C4, evaluated at `new Selector().element('').element('div')`: the first call
stores the empty string, which is falsy, so the second call passes the duplicate
check, returns, and replaces the element. -/
theorem element_after_empty_element_succeeds :
    Selector.empty.element "" = .ok ⟨[(.element1, "")]⟩ ∧
    (Selector.mk [(.element1, "")]).element "div" = .ok ⟨[(.element1, "div")]⟩ ∧
    (Selector.empty.chain [(.element, ""), (.element, "div")]).map Selector.stringify
      = .ok "div" :=
  ⟨rfl, rfl, rfl⟩

/-- C5, evaluated at `new Selector().attr('href').attr('title')`: both calls
return, and `stringify()` is `'[title]'`: the second call overwrote the first
attribute instead of appending to it. -/
theorem attr_overwrites :
    (Selector.empty.chain [(.attr, "href"), (.attr, "title")]).map Selector.stringify
      = .ok "[title]" := rfl

/-! ## Accumulating parts -/

/-- One `class(c)` on a selector without attribute returns and appends `.c` to the
class group (which is empty when no class was set). -/
theorem Selector.class_appends (s : Selector) (c : String) (h : s.get .attr1 = none) :
    ∃ s1, s.class_ c = .ok s1 ∧ s1.get .attr1 = none ∧
      s1.get .class1 = some ((s.get .class1).getD "" ++ "." ++ c) := by
  cases hc : s.get .class1 with
  | none =>
    refine ⟨s.set .class1 ("." ++ c), ?_, ?_, ?_⟩
    · simp [Selector.class_, h, hc, truthy]
    · rw [Selector.get_set_of_ne _ _ _ _ (by decide)]
      exact h
    · simp [Selector.get_set_same]
  | some g =>
    by_cases hg : g = ""
    · refine ⟨s.set .class1 ("." ++ c), ?_, ?_, ?_⟩
      · simp [Selector.class_, h, hc, truthy, hg]
      · rw [Selector.get_set_of_ne _ _ _ _ (by decide)]
        exact h
      · simp [Selector.get_set_same, hg]
    · refine ⟨s.set .class1 (g ++ "." ++ c), ?_, ?_, ?_⟩
      · simp [Selector.class_, h, hc, truthy, hg]
      · rw [Selector.get_set_of_ne _ _ _ _ (by decide)]
        exact h
      · simp [Selector.get_set_same]

/-- One `pseudoClass(p)` on a selector without pseudo-element returns and appends
`:p` to the pseudo-class group (which is empty when no pseudo-class was set). -/
theorem Selector.pseudoClass_appends (s : Selector) (c : String)
    (h : s.get .pseudoElement1 = none) :
    ∃ s1, s.pseudoClass c = .ok s1 ∧ s1.get .pseudoElement1 = none ∧
      s1.get .pseudoClass1 = some ((s.get .pseudoClass1).getD "" ++ ":" ++ c) := by
  cases hc : s.get .pseudoClass1 with
  | none =>
    refine ⟨s.set .pseudoClass1 (":" ++ c), ?_, ?_, ?_⟩
    · simp [Selector.pseudoClass, h, hc, truthy]
    · rw [Selector.get_set_of_ne _ _ _ _ (by decide)]
      exact h
    · simp [Selector.get_set_same]
  | some g =>
    by_cases hg : g = ""
    · refine ⟨s.set .pseudoClass1 (":" ++ c), ?_, ?_, ?_⟩
      · simp [Selector.pseudoClass, h, hc, truthy, hg]
      · rw [Selector.get_set_of_ne _ _ _ _ (by decide)]
        exact h
      · simp [Selector.get_set_same, hg]
    · refine ⟨s.set .pseudoClass1 (g ++ ":" ++ c), ?_, ?_, ?_⟩
      · simp [Selector.pseudoClass, h, hc, truthy, hg]
      · rw [Selector.get_set_of_ne _ _ _ _ (by decide)]
        exact h
      · simp [Selector.get_set_same]

theorem Selector.class_chain (cs : List String) (s : Selector) (h : s.get .attr1 = none) :
    ∃ s1, s.chain (cs.map fun c => (Part.class_, c)) = .ok s1 ∧ s1.get .attr1 = none ∧
      (cs ≠ [] → s1.get .class1
        = some ((s.get .class1).getD "" ++ joinEmpty (cs.map fun c => "." ++ c))) := by
  induction cs generalizing s with
  | nil => exact ⟨s, rfl, h, fun hne => absurd rfl hne⟩
  | cons c rest ih =>
    obtain ⟨s1, hcall, hattr, hclass⟩ := Selector.class_appends s c h
    obtain ⟨s2, hchain, hattr2, hclass2⟩ := ih s1 hattr
    refine ⟨s2, ?_, hattr2, fun _ => ?_⟩
    · simp [Selector.chain, Selector.call, hcall, hchain]
    · cases rest with
      | nil =>
        simp only [List.map_nil, Selector.chain] at hchain
        cases hchain
        simp [hclass, joinEmpty, String.append_assoc]
      | cons c2 rest2 =>
        rw [hclass2 (by simp), hclass]
        simp [joinEmpty, String.append_assoc]

theorem Selector.pseudoClass_chain (cs : List String) (s : Selector)
    (h : s.get .pseudoElement1 = none) :
    ∃ s1, s.chain (cs.map fun c => (Part.pseudoClass, c)) = .ok s1 ∧
      s1.get .pseudoElement1 = none ∧
      (cs ≠ [] → s1.get .pseudoClass1
        = some ((s.get .pseudoClass1).getD "" ++ joinEmpty (cs.map fun c => ":" ++ c))) := by
  induction cs generalizing s with
  | nil => exact ⟨s, rfl, h, fun hne => absurd rfl hne⟩
  | cons c rest ih =>
    obtain ⟨s1, hcall, hpe, hpc⟩ := Selector.pseudoClass_appends s c h
    obtain ⟨s2, hchain, hpe2, hpc2⟩ := ih s1 hpe
    refine ⟨s2, ?_, hpe2, fun _ => ?_⟩
    · simp [Selector.chain, Selector.call, hcall, hchain]
    · cases rest with
      | nil =>
        simp only [List.map_nil, Selector.chain] at hchain
        cases hchain
        simp [hpc, joinEmpty, String.append_assoc]
      | cons c2 rest2 =>
        rw [hpc2 (by simp), hpc]
        simp [joinEmpty, String.append_assoc]

/-- C6: on a selector with no attribute set, `class(c1)`, ..., `class(cn)` all
return and the class group is then the class group the selector had (nothing if no
class was set) followed by `.c1.c2...cn`; on a selector with no pseudo-element set,
`pseudoClass(p1)`, ..., `pseudoClass(pn)` all return and the pseudo-class group is
then the group the selector had followed by `:p1:p2...:pn`. Repeated tokens are
kept. `id('main').class('container').class('editable').stringify()` is
`'#main.container.editable'`. -/
theorem class_and_pseudoClass_accumulate :
    (∀ (s : Selector) (cs : List String), cs ≠ [] → s.get .attr1 = none →
      ∃ s1, s.chain (cs.map fun c => (Part.class_, c)) = .ok s1 ∧
        s1.get .class1
          = some ((s.get .class1).getD "" ++ joinEmpty (cs.map fun c => "." ++ c))) ∧
    (∀ (s : Selector) (ps : List String), ps ≠ [] → s.get .pseudoElement1 = none →
      ∃ s1, s.chain (ps.map fun c => (Part.pseudoClass, c)) = .ok s1 ∧
        s1.get .pseudoClass1
          = some ((s.get .pseudoClass1).getD "" ++ joinEmpty (ps.map fun c => ":" ++ c))) ∧
    (Selector.empty.chain [(.id, "main"), (.class_, "container"), (.class_, "editable")]).map
      Selector.stringify = .ok "#main.container.editable" := by
  refine ⟨?_, ?_, rfl⟩
  · intro s cs hne h
    obtain ⟨s1, hchain, _, hclass⟩ := Selector.class_chain cs s h
    exact ⟨s1, hchain, hclass hne⟩
  · intro s ps hne h
    obtain ⟨s1, hchain, _, hpc⟩ := Selector.pseudoClass_chain ps s h
    exact ⟨s1, hchain, hpc hne⟩

/-- On `#main`, the calls `class('a')`, `class('b')`, `class('a')` give the class
group `.a.b.a`; on `a`, the calls `pseudoClass('hover')`, `pseudoClass('focus')`
give the pseudo-class group `:hover:focus`. -/
theorem class_and_pseudoClass_accumulate_witness :
    (∃ s1, (Selector.mk [(.id1, "#main")]).chain
        [(.class_, "a"), (.class_, "b"), (.class_, "a")] = .ok s1 ∧
      s1.get .class1 = some ".a.b.a") ∧
    (∃ s1, (Selector.mk [(.element1, "a")]).chain
        [(.pseudoClass, "hover"), (.pseudoClass, "focus")] = .ok s1 ∧
      s1.get .pseudoClass1 = some ":hover:focus") :=
  ⟨class_and_pseudoClass_accumulate.1 ⟨[(.id1, "#main")]⟩ ["a", "b", "a"] (by decide) rfl,
   class_and_pseudoClass_accumulate.2.1 ⟨[(.element1, "a")]⟩ ["hover", "focus"]
     (by decide) rfl⟩

/-- C7: for every choice of kinds (a kind is left out with `none`) and of tokens,
the calls made once per chosen kind in canonical order on an empty selector all
return, and `stringify()` is the element token, then `#` and the id, `.` and the
class, the attribute between brackets, `:` and the pseudo-class, `::` and the
pseudo-element, for the kinds chosen. `element('a').id('x')` gives `'a#x'`, and
`element('a').attr('href$=".png"').pseudoClass('focus')` gives
`'a[href$=".png"]:focus'`. -/
theorem canonical_chain_stringify :
    (∀ e i c a pc pe : Option String,
      (Selector.empty.chain (canonicalCalls e i c a pc pe)).map Selector.stringify
        = .ok (partText "" e "" ++ partText "#" i "" ++ partText "." c "" ++ partText "[" a "]"
            ++ partText ":" pc "" ++ partText "::" pe "")) ∧
    (Selector.empty.chain [(.element, "a"), (.id, "x")]).map Selector.stringify
      = .ok "a#x" ∧
    (Selector.empty.chain
        [(.element, "a"), (.attr, "href$=\".png\""), (.pseudoClass, "focus")]).map
      Selector.stringify = .ok "a[href$=\".png\"]:focus" := by
  refine ⟨?_, rfl, rfl⟩
  intro e i c a pc pe
  cases e <;> cases i <;> cases c <;> cases a <;> cases pc <;> cases pe <;>
    simp [canonicalCalls, Selector.chain, Selector.call, Selector.element, Selector.id,
      Selector.class_, Selector.attr, Selector.pseudoClass, Selector.pseudoElement, Selector.get,
      Selector.set, Selector.empty, lookupProp, assignProp, truthy, Selector.stringify, joinEmpty,
      partText, Except.map, String.append_assoc]

/-! ## Combined selectors -/

/-- C8: for all `Selector` instances `left` and `right` and every string
`combinator`, `combine(left, combinator, right)` returns, and `stringify()` of
what it returns is `left.stringify() + ' ' + combinator + ' ' + right.stringify()`. -/
theorem combine_stringify (w : World) (left right : Nat) (combinator : String) :
    ((Expr.combine (.ref (.selector left)) combinator (.ref (.selector right))).render w).map
        Prod.snd
      = .ok (some ((w.read left).stringify ++ " " ++ combinator ++ " "
          ++ (w.read right).stringify)) := rfl

/-- C9, evaluated: with both arguments of `combine` themselves calls of `combine`,
the second inner call overwrites the `combo` property of the facade that the first
inner call had set, and both arguments are that same facade. For all `Selector`
instances `A`, `B`, `C`, `D` the outer `stringify()` is
`C c3 D c2 C c3 D`: the text of `A c1 B` is lost. In particular
`combine(combine(element('a'), '+', element('b')), '~',
combine(element('c'), '>', element('d'))).stringify()` is `'c > d ~ c > d'`, not
`'a + b ~ c > d'`. -/
theorem combine_both_sides_loses_left :
    (∀ (w : World) (a b c d : Nat) (c1 c2 c3 : String),
      ((Expr.combine
          (.combine (.ref (.selector a)) c1 (.ref (.selector b))) c2
          (.combine (.ref (.selector c)) c3 (.ref (.selector d)))).render w).map Prod.snd
        = .ok (some ((w.read c).stringify ++ " " ++ c3 ++ " " ++ (w.read d).stringify
            ++ " " ++ c2 ++ " "
            ++ ((w.read c).stringify ++ " " ++ c3 ++ " " ++ (w.read d).stringify)))) ∧
    ((Expr.combine
        (.combine (.entry .element "a") "+" (.entry .element "b")) "~"
        (.combine (.entry .element "c") ">" (.entry .element "d"))).render World.init).map
        Prod.snd
      = .ok (some "c > d ~ c > d") :=
  ⟨fun _ _ _ _ _ _ _ _ => rfl, rfl⟩

/-- C10: for all `Selector` instances `A`, `B`, `C`,
`combine(combine(A, '+', B), '~', C).stringify()` is
`A.stringify() + ' + ' + B.stringify() + ' ~ ' + C.stringify()`. -/
theorem combine_left_nested (w : World) (a b c : Nat) :
    ((Expr.combine (.combine (.ref (.selector a)) "+" (.ref (.selector b))) "~"
        (.ref (.selector c))).render w).map Prod.snd
      = .ok (some ((w.read a).stringify ++ " + " ++ (w.read b).stringify ++ " ~ "
          ++ (w.read c).stringify)) := by
  have h : ∀ x y z : String,
      x ++ " " ++ "+" ++ " " ++ y ++ " " ++ "~" ++ " " ++ z = x ++ " + " ++ y ++ " ~ " ++ z := by
    intro x y z
    simp only [String.append_assoc]
    rfl
  simp only [Expr.render, Expr.eval, cssSelectorBuilder.combine, World.stringifyOf, template,
    World.read, Except.map]
  rw [h]

/-- C11: for all `Selector` instances `A`, `B`, `C`, `D` and all combinators,
`combine(A, c1, combine(B, c2, combine(C, c3, D))).stringify()` is
`A.stringify() + ' ' + c1 + ' ' + B.stringify() + ' ' + c2 + ' ' + C.stringify()
+ ' ' + c3 + ' ' + D.stringify()`; and the worked example of the docstring
evaluates to
`'div#main.container.draggable + table#data ~ tr:nth-of-type(even)   td:nth-of-type(even)'`. -/
theorem combine_right_nested :
    (∀ (w : World) (a b c d : Nat) (c1 c2 c3 : String),
      ((Expr.combine (.ref (.selector a)) c1
          (.combine (.ref (.selector b)) c2
            (.combine (.ref (.selector c)) c3 (.ref (.selector d))))).render w).map Prod.snd
        = .ok (some ((w.read a).stringify ++ " " ++ c1 ++ " " ++ (w.read b).stringify
            ++ " " ++ c2 ++ " " ++ (w.read c).stringify ++ " " ++ c3 ++ " "
            ++ (w.read d).stringify))) ∧
    ((Expr.combine
        (.part (.part (.part (.entry .element "div") .id "main") .class_ "container")
          .class_ "draggable")
        "+"
        (.combine (.part (.entry .element "table") .id "data") "~"
          (.combine (.part (.entry .element "tr") .pseudoClass "nth-of-type(even)") " "
            (.part (.entry .element "td") .pseudoClass "nth-of-type(even)")))).render
        World.init).map Prod.snd
      = .ok (some
          "div#main.container.draggable + table#data ~ tr:nth-of-type(even)   td:nth-of-type(even)") := by
  refine ⟨?_, rfl⟩
  intro w a b c d c1 c2 c3
  simp only [Expr.render, Expr.eval, cssSelectorBuilder.combine, World.stringifyOf, template,
    World.read, Except.map, String.append_assoc]

/-! ## The entry points of the facade and the state they share -/

/-- C12, evaluated at `cssSelectorBuilder.attr('a'); cssSelectorBuilder.attr('b')`:
the second call returns the object of the first call (address 0), not a new one,
and its `stringify()` is `'[undefined]'`, not `'[b]'`. When the first object has
a pseudo-class, as after `cssSelectorBuilder.attr('a').pseudoClass('hover')`, the
second call throws the out-of-order error. -/
theorem builder_attr_second_call :
    (Expr.entry .attr "a").eval World.init
      = .ok (⟨[⟨[(.attr1, "[a]")]⟩], none, none, some 0, none, none⟩, .selector 0) ∧
    evalAfter [.entry .attr "a"] (.entry .attr "b") World.init
      = .ok (⟨[⟨[(.attr1, "[undefined]")]⟩], none, none, some 0, none, none⟩, .selector 0) ∧
    renderAfter [.entry .attr "a"] (.entry .attr "b") World.init
      = .ok (some "[undefined]") ∧
    renderAfter [.part (.entry .attr "a") .pseudoClass "hover"] (.entry .attr "b") World.init
      = .error .order :=
  ⟨rfl, rfl, rfl, rfl⟩

/-- C13, evaluated at
`cssSelectorBuilder.pseudoElement('after'); cssSelectorBuilder.pseudoElement('before')`:
the second call returns the object of the first call (address 0), not a new one,
and its `stringify()` is `'::after'`, not `'::before'`. -/
theorem builder_pseudoElement_second_call :
    (Expr.entry .pseudoElement "after").eval World.init
      = .ok (⟨[⟨[(.pseudoElement1, "::after")]⟩], none, none, none, none, some 0⟩,
          .selector 0) ∧
    evalAfter [.entry .pseudoElement "after"] (.entry .pseudoElement "before") World.init
      = .ok (⟨[⟨[(.pseudoElement1, "::after")]⟩], none, none, none, none, some 0⟩,
          .selector 0) ∧
    renderAfter [.entry .pseudoElement "after"] (.entry .pseudoElement "before") World.init
      = .ok (some "::after") :=
  ⟨rfl, rfl, rfl⟩

/-- C14, evaluated. With `x = combine(element('a'), '+', element('b'))`,
`x.stringify()` is `'a + b'`, and after `combine(element('c'), '>', element('d'))`
it is `'c > d'`. With `p = cssSelectorBuilder.attr('a')`, `p.stringify()` is
`'[a]'`, and after `cssSelectorBuilder.attr('b')`, a call whose receiver is the
facade and not `p`, it is `'[undefined]'`. -/
theorem facade_state_is_shared :
    stringifyAround (.combine (.entry .element "a") "+" (.entry .element "b"))
        (.combine (.entry .element "c") ">" (.entry .element "d")) World.init
      = .ok (some "a + b", some "c > d") ∧
    stringifyAround (.entry .attr "a") (.entry .attr "b") World.init
      = .ok (some "[a]", some "[undefined]") :=
  ⟨rfl, rfl⟩

/-! ## Selectors built by calls: what a set property holds -/

theorem ne_empty_of_length_pos (s : String) (h : 0 < s.length) : s ≠ "" := by
  intro hs
  rw [hs] at h
  exact absurd h (by decide)

/-- Apart from the element, a property that is set on a selector built by calls
holds a non-empty string: every method stores its delimiter with the token. -/
theorem Selector.attempt_keeps_set_truthy (s : Selector) (c : Part × String)
    (h : ∀ k, k ≠ .element1 → s.get k ≠ none → truthy (s.get k) = true) :
    ∀ k, k ≠ .element1 → (s.attempt c).get k ≠ none → truthy ((s.attempt c).get k) = true := by
  obtain ⟨p, v⟩ := c
  intro k hk
  cases p <;>
    simp only [Selector.attempt, Selector.call, Selector.element, Selector.id, Selector.class_,
      Selector.attr, Selector.pseudoClass, Selector.pseudoElement] <;>
    split_ifs <;>
    first
    | exact h k hk
    | (cases k <;>
        first
        | exact absurd rfl hk
        | (rw [Selector.get_set_of_ne _ _ _ _ (by decide)]; exact h _ (by decide))
        | (intro _
           rw [Selector.get_set_same]
           simp only [truthy, decide_eq_true_eq]
           apply ne_empty_of_length_pos
           simp only [String.length_append]
           have h1 : (1 : Nat) ≤ ".".length := by decide
           have h2 : (1 : Nat) ≤ "#".length := by decide
           have h3 : (1 : Nat) ≤ "[".length := by decide
           have h4 : (1 : Nat) ≤ ":".length := by decide
           have h5 : (1 : Nat) ≤ "::".length := by decide
           omega))

theorem Selector.attempts_set_truthy (calls : List (Part × String)) (s : Selector)
    (h : ∀ k, k ≠ .element1 → s.get k ≠ none → truthy (s.get k) = true) :
    ∀ k, k ≠ .element1 → (s.attempts calls).get k ≠ none →
      truthy ((s.attempts calls).get k) = true := by
  induction calls generalizing s with
  | nil => exact h
  | cons c rest ih => exact ih (s.attempt c) (Selector.attempt_keeps_set_truthy s c h)

theorem Selector.built_set_truthy (calls : List (Part × String)) (k : Key)
    (hk : k ≠ .element1) (hset : (Selector.empty.attempts calls).get k ≠ none) :
    truthy ((Selector.empty.attempts calls).get k) = true :=
  Selector.attempts_set_truthy calls Selector.empty (fun _ _ hne => absurd rfl hne) k hk hset

/-- C15: on every selector built from an empty one by calls (each of which may
have thrown): if class is set and id is not, `id(v)` throws the out-of-order
error; if a pseudo-class is set, `attr(v)` throws it; if id is set and element is
not, `element(v)` throws it; if an attribute is set, `class(v)` throws it; if the
pseudo-element is set, `pseudoClass(v)` throws it. -/
theorem backward_moves_rejected (calls : List (Part × String)) (s : Selector) (v : String)
    (hs : s = Selector.empty.attempts calls) :
    (s.get .class1 ≠ none → s.get .id1 = none → s.id v = .error .order) ∧
    (s.get .pseudoClass1 ≠ none → s.attr v = .error .order) ∧
    (s.get .element1 = none → s.get .id1 ≠ none → s.element v = .error .order) ∧
    (s.get .attr1 ≠ none → s.class_ v = .error .order) ∧
    (s.get .pseudoElement1 ≠ none → s.pseudoClass v = .error .order) := by
  subst hs
  refine ⟨?_, ?_, ?_, ?_, ?_⟩
  · intro hc hi
    have h := Selector.built_set_truthy calls .class1 (by decide) hc
    have hi1 : truthy ((Selector.empty.attempts calls).get .id1) = false := by
      rw [hi]
      rfl
    simp [Selector.id, hi1, h]
  · intro hp
    have h := Selector.built_set_truthy calls .pseudoClass1 (by decide) hp
    simp [Selector.attr, h]
  · intro he hi
    have h := Selector.built_set_truthy calls .id1 (by decide) hi
    have he1 : truthy ((Selector.empty.attempts calls).get .element1) = false := by
      rw [he]
      rfl
    simp [Selector.element, he1, h]
  · intro ha
    have h := Selector.built_set_truthy calls .attr1 (by decide) ha
    simp [Selector.class_, h]
  · intro hp
    have h := Selector.built_set_truthy calls .pseudoElement1 (by decide) hp
    simp [Selector.pseudoClass, h]

/-- After `element('div').class('main')`, `id('x')` throws the out-of-order error;
after `class('c').pseudoClass('hover')`, `attr('href')` throws it. -/
theorem backward_moves_rejected_witness :
    (Selector.empty.attempts [(.element, "div"), (.class_, "main")]).id "x" = .error .order ∧
    (Selector.empty.attempts [(.class_, "c"), (.pseudoClass, "hover")]).attr "href"
      = .error .order :=
  ⟨(backward_moves_rejected [(.element, "div"), (.class_, "main")] _ "x" rfl).1
      (by decide) rfl,
   (backward_moves_rejected [(.class_, "c"), (.pseudoClass, "hover")] _ "href" rfl).2.1
      (by decide)⟩

/-! ## Calls that throw -/

theorem template_eq_getD (o : Option String) : template o = o.getD "undefined" := by
  cases o <;> rfl

/-- The statement-by-statement bodies and the methods of `Selector` agree: a body
that returns leaves the receiver that the method returns, and a body that throws
throws the error of the method. -/
theorem Selector.exec_agrees_with_call (s : Selector) (p : Part) (v : String) :
    s.call p v =
      match s.exec p v with
      | (.ok _, s1) => .ok s1
      | (.error e, _) => .error e := by
  cases p <;>
    simp only [Selector.call, Selector.exec, Body.ofPart, Body.element, Body.id, Body.class_,
      Body.attr, Body.pseudoClass, Body.pseudoElement, Selector.element, Selector.id,
      Selector.class_, Selector.attr, Selector.pseudoClass, Selector.pseudoElement] <;>
    cases h1 : truthy (s.get .element1) <;> cases h2 : truthy (s.get .id1) <;>
    cases h3 : truthy (s.get .class1) <;> cases h4 : truthy (s.get .attr1) <;>
    cases h5 : truthy (s.get .pseudoClass1) <;> cases h6 : truthy (s.get .pseudoElement1) <;>
    simp [h1, h2, h3, h4, h5, h6, Body.read, Body.assign, ExceptT.run, StateT.run, bind,
      ExceptT.bind, ExceptT.mk, ExceptT.bindCont, StateT.bind, getThe, MonadStateOf.get,
      liftM, monadLift, MonadLift.monadLift, ExceptT.lift, StateT.get, pure, ExceptT.pure,
      StateT.pure, throw, throwThe, MonadExceptOf.throw, modifyGet, MonadStateOf.modifyGet,
      StateT.modifyGet, StateT.map, Functor.map, modifyThe, template_eq_getD]

/-- C16: whatever the selector, the part operation and the token, a call that
throws leaves every property of the selector, and hence `stringify()`, as it was
before the call. -/
theorem failed_call_leaves_selector_unchanged (s : Selector) (p : Part) (v : String)
    (e : SelectorError) (h : (s.exec p v).1 = .error e) :
    (s.exec p v).2 = s ∧ (∀ k, (s.exec p v).2.get k = s.get k) ∧
      (s.exec p v).2.stringify = s.stringify := by
  have key : (s.exec p v).2 = s := by
    revert h
    cases p <;>
      simp only [Selector.exec, Body.ofPart, Body.element, Body.id, Body.class_,
        Body.attr, Body.pseudoClass, Body.pseudoElement] <;>
      cases h1 : truthy (s.get .element1) <;> cases h2 : truthy (s.get .id1) <;>
      cases h3 : truthy (s.get .class1) <;> cases h4 : truthy (s.get .attr1) <;>
      cases h5 : truthy (s.get .pseudoClass1) <;> cases h6 : truthy (s.get .pseudoElement1) <;>
      simp [h1, h2, h3, h4, h5, h6, Body.read, Body.assign, ExceptT.run, StateT.run, bind,
        ExceptT.bind, ExceptT.mk, ExceptT.bindCont, StateT.bind, getThe, MonadStateOf.get,
        liftM, monadLift, MonadLift.monadLift, ExceptT.lift, StateT.get, pure, ExceptT.pure,
        StateT.pure, throw, throwThe, MonadExceptOf.throw, modifyGet, MonadStateOf.modifyGet,
        StateT.modifyGet, StateT.map, Functor.map, modifyThe, template_eq_getD]
  refine ⟨key, ?_, ?_⟩
  · intro k
    rw [key]
  · rw [key]

/-- On `#main.c`, the call `element('div')` throws the out-of-order error and the
selector still reads `#main.c`; on `#main`, the call `id('x')` throws the
duplicate error and the selector still reads `#main`. -/
theorem failed_call_leaves_selector_unchanged_witness :
    ((Selector.mk [(.id1, "#main"), (.class1, ".c")]).exec .element "div").1
        = .error .order ∧
      ((Selector.mk [(.id1, "#main"), (.class1, ".c")]).exec .element "div").2.stringify
        = "#main.c" ∧
    ((Selector.mk [(.id1, "#main")]).exec .id "x").1 = .error .duplicate ∧
      ((Selector.mk [(.id1, "#main")]).exec .id "x").2 = ⟨[(.id1, "#main")]⟩ :=
  ⟨rfl,
   (failed_call_leaves_selector_unchanged ⟨[(.id1, "#main"), (.class1, ".c")]⟩ .element "div"
      .order rfl).2.2,
   rfl,
   (failed_call_leaves_selector_unchanged ⟨[(.id1, "#main")]⟩ .id "x" .duplicate rfl).1⟩

/-! ## Well-ordered chains -/

theorem Selector.chain_append (s : Selector) (l1 l2 : List (Part × String)) :
    s.chain (l1 ++ l2) =
      match s.chain l1 with
      | .ok s1 => s1.chain l2
      | .error e => .error e := by
  induction l1 generalizing s with
  | nil => rfl
  | cons c rest ih =>
    obtain ⟨p, v⟩ := c
    simp only [List.cons_append, Selector.chain]
    cases s.call p v with
    | ok s1 => exact ih s1
    | error e => rfl

theorem Selector.unsetFrom_mono (s : Selector) (r r' : Nat) (hle : r ≤ r')
    (h : s.unsetFrom r) : s.unsetFrom r' :=
  fun k hk => h k (Nat.le_trans hle hk)

/-- A call whose checked properties are all unset returns, and it assigns only
its own property. -/
theorem Selector.call_ok_of_unsetFrom (s : Selector) (p : Part) (v : String)
    (h : s.unsetFrom p.clearFrom) :
    ∃ s1, s.call p v = .ok s1 ∧ s1.unsetFrom (p.key.rank + 1) := by
  cases p
  · have h1 := h .element1 (by decide)
    have h2 := h .id1 (by decide)
    refine ⟨s.set .element1 v, by simp [Selector.call, Selector.element, h1, h2, truthy], ?_⟩
    intro k hk
    cases k <;> first
      | exact absurd hk (by decide)
      | (rw [Selector.get_set_of_ne _ _ _ _ (by decide)]; exact h _ (by decide))
  · have h1 := h .id1 (by decide)
    have h2 := h .class1 (by decide)
    have h3 := h .pseudoElement1 (by decide)
    refine ⟨s.set .id1 ("#" ++ v), by simp [Selector.call, Selector.id, h1, h2, h3, truthy], ?_⟩
    intro k hk
    cases k <;> first
      | exact absurd hk (by decide)
      | (rw [Selector.get_set_of_ne _ _ _ _ (by decide)]; exact h _ (by decide))
  · have h1 := h .attr1 (by decide)
    obtain ⟨s1, hcall, _, _⟩ := Selector.class_appends s v h1
    refine ⟨s1, hcall, ?_⟩
    have hset : s1 = s.set .class1 ("." ++ v) ∨
        s1 = s.set .class1 ((s.get .class1).getD "undefined" ++ "." ++ v) := by
      simp only [Selector.class_] at hcall
      split_ifs at hcall
      · exact Or.inl (Except.ok.inj hcall).symm
      · exact Or.inr (Except.ok.inj hcall).symm
    intro k hk
    rcases hset with hset | hset <;> subst hset <;>
      cases k <;> first
        | exact absurd hk (by decide)
        | (rw [Selector.get_set_of_ne _ _ _ _ (by decide)]; exact h _ (by decide))
  · have h1 := h .pseudoClass1 (by decide)
    refine ⟨s.set .attr1 ("[" ++ v ++ "]"), by simp [Selector.call, Selector.attr, h1, truthy], ?_⟩
    intro k hk
    cases k <;> first
      | exact absurd hk (by decide)
      | (rw [Selector.get_set_of_ne _ _ _ _ (by decide)]; exact h _ (by decide))
  · have h1 := h .pseudoElement1 (by decide)
    obtain ⟨s1, hcall, _, _⟩ := Selector.pseudoClass_appends s v h1
    refine ⟨s1, hcall, ?_⟩
    have hset : s1 = s.set .pseudoClass1 (":" ++ v) ∨
        s1 = s.set .pseudoClass1 ((s.get .pseudoClass1).getD "undefined" ++ ":" ++ v) := by
      simp only [Selector.pseudoClass] at hcall
      split_ifs at hcall
      · exact Or.inl (Except.ok.inj hcall).symm
      · exact Or.inr (Except.ok.inj hcall).symm
    intro k hk
    rcases hset with hset | hset <;> subst hset <;>
      cases k <;> first
        | exact absurd hk (by decide)
        | (rw [Selector.get_set_of_ne _ _ _ _ (by decide)]; exact h _ (by decide))
  · have h1 := h .pseudoElement1 (by decide)
    refine ⟨s.set .pseudoElement1 ("::" ++ v),
      by simp [Selector.call, Selector.pseudoElement, h1, truthy], ?_⟩
    intro k hk
    cases k <;> exact absurd hk (by decide)

/-- Calls of one kind, any number of them, when each call keeps what it needs. -/
theorem Selector.chain_same_kind (p : Part) (hp : p.clearFrom = p.key.rank + 1)
    (tokens : List String) (s : Selector) (h : s.unsetFrom p.clearFrom) :
    ∃ s1, s.chain (tokens.map fun v => (p, v)) = .ok s1 ∧ s1.unsetFrom p.clearFrom := by
  induction tokens generalizing s with
  | nil => exact ⟨s, rfl, h⟩
  | cons v rest ih =>
    obtain ⟨s1, hcall, h1⟩ := Selector.call_ok_of_unsetFrom s p v h
    rw [← hp] at h1
    obtain ⟨s2, hchain, h2⟩ := ih s1 h1
    exact ⟨s2, by simp [Selector.chain, hcall, hchain], h2⟩

/-- A call made at most once. -/
theorem Selector.chain_optional (p : Part) (hp : p.clearFrom ≤ p.key.rank + 1)
    (token : Option String) (s : Selector) (h : s.unsetFrom p.clearFrom) :
    ∃ s1, s.chain (token.toList.map fun v => (p, v)) = .ok s1 ∧
      s1.unsetFrom (p.key.rank + 1) := by
  cases token with
  | none => exact ⟨s, rfl, Selector.unsetFrom_mono s _ _ hp h⟩
  | some v =>
    obtain ⟨s1, hcall, h1⟩ := Selector.call_ok_of_unsetFrom s p v h
    exact ⟨s1, by simp [Selector.chain, hcall], h1⟩

/-- C19: a chain of the shape `element? id? class* attr* pseudoClass*
pseudoElement?`, with arbitrary tokens, applied in that order to an empty selector:
no call throws. -/
theorem well_ordered_chain_succeeds (element id : Option String)
    (classes attrs pseudoClasses : List String) (pseudoElement : Option String) :
    ∃ s, Selector.empty.chain
      (wellOrderedCalls element id classes attrs pseudoClasses pseudoElement) = .ok s := by
  have h0 : Selector.empty.unsetFrom (Part.clearFrom .element) := fun _ _ => rfl
  obtain ⟨s1, c1, h1⟩ := Selector.chain_optional .element (by decide) element _ h0
  obtain ⟨s2, c2, h2⟩ := Selector.chain_optional .id (by decide) id s1 h1
  obtain ⟨s3, c3, h3⟩ := Selector.chain_same_kind .class_ (by decide) classes s2
    (Selector.unsetFrom_mono s2 _ _ (by decide) h2)
  obtain ⟨s4, c4, h4⟩ := Selector.chain_same_kind .attr (by decide) attrs s3
    (Selector.unsetFrom_mono s3 _ _ (by decide) h3)
  obtain ⟨s5, c5, h5⟩ := Selector.chain_same_kind .pseudoClass (by decide) pseudoClasses s4
    (Selector.unsetFrom_mono s4 _ _ (by decide) h4)
  obtain ⟨s6, c6, _⟩ := Selector.chain_optional .pseudoElement (by decide) pseudoElement s5 h5
  exact ⟨s6, by simp only [wellOrderedCalls, Selector.chain_append, c1, c2, c3, c4, c5, c6]⟩

/-! ## The rendering follows the order in which the kinds were first set -/

theorem Part.key_ne_of_ne (p q : Part) (h : q ≠ p) : q.key ≠ p.key := by
  cases p <;> cases q <;> first
    | exact absurd rfl h
    | (intro hk; cases hk)

theorem kindsInOrder_snoc (l : List (Part × String)) (c : Part × String) :
    kindsInOrder (l ++ [c])
      = if c.1 ∈ kindsInOrder l then kindsInOrder l else kindsInOrder l ++ [c.1] := by
  simp [kindsInOrder, List.foldl_append]

theorem kindsInOrder_nodup (l : List (Part × String)) : (kindsInOrder l).Nodup := by
  induction l using List.reverseRecOn with
  | nil => simp [kindsInOrder]
  | append_singleton l c ih =>
    rw [kindsInOrder_snoc]
    split_ifs with h
    · exact ih
    · exact List.Nodup.append ih (List.nodup_singleton _) (by simpa using h)

theorem tokensOf_snoc (q p : Part) (v : String) (l : List (Part × String)) :
    tokensOf q (l ++ [(p, v)]) = if p = q then tokensOf q l ++ [v] else tokensOf q l := by
  by_cases h : p = q <;> simp [tokensOf, List.filter_append, h]

theorem mem_kindsInOrder_iff (p : Part) (l : List (Part × String)) :
    p ∈ kindsInOrder l ↔ tokensOf p l ≠ [] := by
  induction l using List.reverseRecOn with
  | nil => simp [kindsInOrder, tokensOf]
  | append_singleton l c ih =>
    obtain ⟨q, v⟩ := c
    rw [kindsInOrder_snoc, tokensOf_snoc]
    by_cases hq : q = p
    · subst hq
      by_cases h : q ∈ kindsInOrder l <;> simp [h]
    · have hq1 : p ≠ q := fun h => hq h.symm
      by_cases h : q ∈ kindsInOrder l <;> simp [h, ih, hq, hq1]

theorem lookupProp_map_key (g : Part → String) (kinds : List Part) (p : Part) :
    lookupProp p.key (kinds.map fun q => (q.key, g q))
      = if p ∈ kinds then some (g p) else none := by
  induction kinds with
  | nil => simp [lookupProp]
  | cons q rest ih =>
    by_cases hq : q = p
    · subst hq
      simp [lookupProp]
    · have hk := Part.key_ne_of_ne p q hq
      have hq1 : p ≠ q := fun h => hq h.symm
      simp [lookupProp, hk, ih, hq1]

theorem assignProp_map_key (g g1 : Part → String) (kinds : List Part) (p : Part) (x : String)
    (hnd : kinds.Nodup) (hg : ∀ q, q ≠ p → g1 q = g q) (hx : g1 p = x) :
    assignProp p.key x (kinds.map fun q => (q.key, g q))
      = (if p ∈ kinds then kinds else kinds ++ [p]).map fun q => (q.key, g1 q) := by
  induction kinds with
  | nil => simp [assignProp, hx]
  | cons q rest ih =>
    have hnd1 := List.nodup_cons.mp hnd
    by_cases hq : q = p
    · subst hq
      have hrest : (rest.map fun r => (r.key, g r)) = rest.map fun r => (r.key, g1 r) := by
        apply List.map_congr_left
        intro r hr
        have hne : r ≠ q := fun h => hnd1.1 (h ▸ hr)
        rw [hg r hne]
      simp [assignProp, hx, hrest]
    · have hk := Part.key_ne_of_ne p q hq
      have hq1 : p ≠ q := fun h => hq h.symm
      have ih1 := ih hnd1.2
      simp only [List.map_cons, assignProp, hk, if_false, List.mem_cons, hq1, false_or, ih1]
      split_ifs <;> simp [hg q hq]

theorem joinEmpty_append_singleton (l : List String) (x : String) :
    joinEmpty (l ++ [x]) = joinEmpty l ++ x := by
  induction l with
  | nil => simp [joinEmpty]
  | cons a rest ih => simp [joinEmpty, ih, String.append_assoc]

theorem joinEmpty_delimited_ne_empty (d : String) (hd : d ≠ "") (tokens : List String)
    (h : tokens ≠ []) : joinEmpty (tokens.map fun c => d ++ c) ≠ "" := by
  cases tokens with
  | nil => exact absurd rfl h
  | cons t rest =>
    simp only [List.map_cons, joinEmpty]
    exact append_ne_empty_of_left _ _ (append_ne_empty_of_left _ _ hd)

theorem groupText_snoc_of_ne (l : List (Part × String)) (p q : Part) (v : String)
    (h : q ≠ p) : groupText (l ++ [(p, v)]) q = groupText l q := by
  have h1 : ¬ p = q := fun hpq => h hpq.symm
  cases q <;> simp [groupText, lastToken, tokensOf_snoc, h1]

theorem lastToken_snoc (l : List (Part × String)) (p : Part) (v : String) :
    lastToken p (l ++ [(p, v)]) = v := by
  simp [lastToken, tokensOf_snoc, List.getLast?_concat]

/-- The value that `class` and `pseudoClass` store is the described group: the
accumulated group followed by the delimiter and the new token. -/
theorem accumulated_group (d : String) (hd : d ≠ "") (p : Part) (v : String)
    (done : List (Part × String)) (s1 : Selector)
    (hget : s1.get p.key
      = if p ∈ kindsInOrder done
        then some (joinEmpty ((tokensOf p done).map fun c => d ++ c)) else none) :
    joinEmpty ((tokensOf p (done ++ [(p, v)])).map fun c => d ++ c)
      = if !truthy (s1.get p.key) then d ++ v
        else (s1.get p.key).getD "undefined" ++ d ++ v := by
  rw [tokensOf_snoc, if_pos rfl, List.map_append, List.map_singleton,
    joinEmpty_append_singleton]
  by_cases hm : p ∈ kindsInOrder done
  · have hne := joinEmpty_delimited_ne_empty d hd _ ((mem_kindsInOrder_iff p done).mp hm)
    rw [hget, if_pos hm]
    simp [truthy, hne, String.append_assoc]
  · have hnil : tokensOf p done = [] := by
      by_contra hcon
      exact hm ((mem_kindsInOrder_iff p done).mpr hcon)
    rw [hget, if_neg hm, hnil]
    simp [truthy, joinEmpty]

/-- A call that returns has assigned to its own property the group described for
the calls made so far. -/
theorem Selector.call_sets_described (done : List (Part × String)) (s1 s : Selector)
    (p : Part) (v : String)
    (hinv : s1.props = (kindsInOrder done).map fun q => (q.key, groupText done q))
    (hcall : s1.call p v = .ok s) :
    s = s1.set p.key (groupText (done ++ [(p, v)]) p) := by
  have hget : ∀ q : Part, s1.get q.key
      = if q ∈ kindsInOrder done then some (groupText done q) else none := by
    intro q
    unfold Selector.get
    rw [hinv]
    exact lookupProp_map_key _ _ q
  cases p
  · simp only [Selector.call, Selector.element] at hcall
    split_ifs at hcall
    rw [← Except.ok.inj hcall]
    simp [Part.key, groupText, lastToken_snoc]
  · simp only [Selector.call, Selector.id] at hcall
    split_ifs at hcall
    rw [← Except.ok.inj hcall]
    simp [Part.key, groupText, lastToken_snoc]
  · have hacc := accumulated_group "." (by decide) .class_ v done s1 (hget .class_)
    simp only [Selector.call, Selector.class_] at hcall
    simp only [Part.key] at hacc
    split_ifs at hcall with h1 h2
    · rw [← Except.ok.inj hcall]
      simp [Part.key, groupText, hacc, h2]
    · rw [← Except.ok.inj hcall]
      simp [Part.key, groupText, hacc, h2]
  · simp only [Selector.call, Selector.attr] at hcall
    split_ifs at hcall
    rw [← Except.ok.inj hcall]
    simp [Part.key, groupText, lastToken_snoc]
  · have hacc := accumulated_group ":" (by decide) .pseudoClass v done s1 (hget .pseudoClass)
    simp only [Selector.call, Selector.pseudoClass] at hcall
    simp only [Part.key] at hacc
    split_ifs at hcall with h1 h2
    · rw [← Except.ok.inj hcall]
      simp [Part.key, groupText, hacc, h2]
    · rw [← Except.ok.inj hcall]
      simp [Part.key, groupText, hacc, h2]
  · simp only [Selector.call, Selector.pseudoElement] at hcall
    split_ifs at hcall
    rw [← Except.ok.inj hcall]
    simp [Part.key, groupText, lastToken_snoc]

/-- The properties of a selector built by a chain of calls that all returned: one
per kind called, in the order in which the kinds were first called, each holding
the group described for that kind. -/
theorem Selector.chain_props_described (calls : List (Part × String)) :
    ∀ s, Selector.empty.chain calls = .ok s →
      s.props = (kindsInOrder calls).map fun q => (q.key, groupText calls q) := by
  induction calls using List.reverseRecOn with
  | nil =>
    intro s h
    rw [← Except.ok.inj h]
    rfl
  | append_singleton l c ih =>
    obtain ⟨p, v⟩ := c
    intro s h
    rw [Selector.chain_append] at h
    cases h1 : Selector.empty.chain l with
    | error e =>
      rw [h1] at h
      cases h
    | ok s1 =>
      rw [h1] at h
      have hcall : s1.call p v = .ok s := by
        simp only [Selector.chain] at h
        cases hc : s1.call p v with
        | error e =>
          rw [hc] at h
          cases h
        | ok s2 =>
          rw [hc] at h
          exact h
      have hinv := ih s1 h1
      have hset := Selector.call_sets_described l s1 s p v hinv hcall
      rw [hset]
      simp only [Selector.set]
      rw [hinv, kindsInOrder_snoc]
      exact assignProp_map_key (groupText l) (groupText (l ++ [(p, v)])) (kindsInOrder l) p _
        (kindsInOrder_nodup l) (fun q hq => groupText_snoc_of_ne l p q v hq) rfl

/-- C18: for every selector obtained from an empty one by a sequence of part calls
that all returned, `stringify()` is the concatenation of the groups of the kinds
that were called, in the order in which each kind was first called, a group being
the raw element token, `#` and the id, the accumulated `.c1.c2...`, the last
attribute between brackets, the accumulated `:p1:p2...`, or `::` and the
pseudo-element. No canonical order is applied by `stringify()`. -/
theorem stringify_follows_first_call_order (calls : List (Part × String)) (s : Selector)
    (h : Selector.empty.chain calls = .ok s) :
    s.stringify = describedStringify calls := by
  rw [Selector.stringify, Selector.chain_props_described calls s h, describedStringify,
    List.map_map]
  rfl

/-- The chain `class('c').element('e').class('d').attr('a').attr('b')` returns and
reads `.c.de[b]`: the class group first, with both classes, then the element, then
the last attribute. -/
theorem stringify_follows_first_call_order_witness :
    (Selector.mk [(.class1, ".c.d"), (.element1, "e"), (.attr1, "[b]")]).stringify
      = ".c.de[b]" :=
  stringify_follows_first_call_order
    [(.class_, "c"), (.element, "e"), (.class_, "d"), (.attr, "a"), (.attr, "b")]
    ⟨[(.class1, ".c.d"), (.element1, "e"), (.attr1, "[b]")]⟩ rfl

/-! ## Which error comes first -/

/-- The duplicate check is the first statement of `id` and of `element`: a truthy
`id1` (resp. `element1`) gives the duplicate error whatever else is set, and the
out-of-order error of these two methods is only thrown when the property of the
requested part is falsy. -/
theorem Selector.duplicate_check_first (s : Selector) (v : String) :
    (truthy (s.get .id1) = true → s.id v = .error .duplicate) ∧
    (truthy (s.get .element1) = true → s.element v = .error .duplicate) ∧
    (s.id v = .error .order → truthy (s.get .id1) = false) ∧
    (s.element v = .error .order → truthy (s.get .element1) = false) := by
  refine ⟨?_, ?_, ?_, ?_⟩
  · intro h
    simp [Selector.id, h]
  · intro h
    simp [Selector.element, h]
  · intro h
    cases hi : truthy (s.get .id1) with
    | false => rfl
    | true => simp [Selector.id, hi] at h
  · intro h
    cases he : truthy (s.get .element1) with
    | false => rfl
    | true => simp [Selector.element, he] at h

/-- C20, evaluated at `new Selector().element('').id('x').element('e')`: the first
two calls return, so the element is set (to the empty string) and the id is set;
the third call throws the out-of-order error, not the duplicate error, because
the duplicate check of `element` tests the stored token for truthiness. -/
theorem element_order_error_although_set :
    Selector.empty.chain [(.element, ""), (.id, "x")]
      = .ok ⟨[(.element1, ""), (.id1, "#x")]⟩ ∧
    (Selector.mk [(.element1, ""), (.id1, "#x")]).get .element1 = some "" ∧
    (Selector.mk [(.element1, ""), (.id1, "#x")]).element "e" = .error .order ∧
    ((Selector.mk [(.element1, ""), (.id1, "#x")]).exec .element "e").1 = .error .order :=
  ⟨rfl, rfl, rfl, rfl⟩

end CssSelector
